import Mathlib

/-!
Verification of the kingfisher response-gating core.

Shallow embedding of the response registry of `bot-lib/src/config.rs`,
the registry scan of `bot-lib/src/data.rs` and the legacy cooldown gate of
`src/text_detection.rs`.

Modelling conventions:
* `chrono::DateTime<Utc>` and `chrono::Duration` are modelled as `Int`
  (a timestamp / number of ticks); subtraction, addition and order are the
  integer ones, matching chrono's total order and arithmetic.
* `f64` hit rates and the value drawn by `rand::random::<f64>()` (uniform
  in `[0,1)`) are modelled as `ℚ`; only order comparisons are performed on
  them in the source, so this is faithful.
* Rust `str::contains` (verbatim, case-sensitive substring test) is
  modelled as `strContains` below; like the Rust function it returns
  `true` whenever the needle is empty.
* The mutex around `last_triggered` is modelled by passing the stored
  timestamp in and returning the (possibly updated) timestamp: the source
  holds the lock for the whole of `find_valid_response`, so one sequential
  evaluation is exactly one call of the embedded function.
* The random draw consumed by one evaluation is an explicit argument; the
  registry scan receives an oracle `draws : Nat → ℚ` giving the draw the
  i-th response would consume.
-/

/-- Rust `input.contains(needle)`: `needle` occurs verbatim (case-sensitive)
as a substring of `haystack`; an empty needle is contained in every string. -/
def strContains (haystack needle : String) : Bool :=
  decide (needle.toList <:+: haystack.toList)

/-- Modelled from the spec: the compiled rule language (`lang/ruleset.rs` is
not among the provided sources). A rule set is kept abstract as its pure,
side-effect-free `matches` predicate on the message text, which is the only
part of it the gating algorithm consults. -/
structure Ruleset where
  «matches» : String → Bool

/-- Modelled from the spec: starboard settings (`starboard.rs` is not among
the provided sources, and starboards are out of the spec's scope). The type
is opaque data carried through the configuration unchanged. -/
structure Starboard where
  data : Nat
deriving DecidableEq

/-- Embeds `ReactRole` of `bot-lib/src/config.rs` (fields `react`, `user_id`). -/
structure ReactRole where
  react : Bool
  user_id : Nat
deriving DecidableEq

/-- Embeds `ResponseKind` of `bot-lib/src/config.rs`: none, text, random text,
image, or text-and-image content. -/
inductive ResponseKind where
  | none : ResponseKind
  | text (content : String) : ResponseKind
  | randomText (content : List String) : ResponseKind
  | image (path : String) : ResponseKind
  | textAndImage (content : String) (path : String) : ResponseKind
deriving DecidableEq

/-- Models `DateTime::<Utc>::MIN_UTC`, the "never triggered" sentinel timestamp,
as a fixed minimal tick count. -/
def MIN_UTC : Int := -8334632851200

/-- Embeds `default_time` of `bot-lib/src/config.rs`: the serde default for
`last_triggered`. -/
def default_time : Int := MIN_UTC

/-- Embeds `get_default_text_detect_cooldown` of `bot-lib/src/config.rs`:
45 seconds. -/
def get_default_text_detect_cooldown : Int := 45

/-- Embeds `RegisteredResponse` of `bot-lib/src/config.rs`. `last_triggered` holds
the timestamp stored in the response's mutex. -/
structure RegisteredResponse where
  name : String
  hit_rate : Option ℚ
  ruleset : Ruleset
  message_response : ResponseKind
  last_triggered : Int
  cooldown : Option Int
  unskippable : Bool

/-- Embeds `Config` of `bot-lib/src/config.rs`. `config_path` and
`bot_react_role_members` carry `#[serde(skip)]` in the source; `responses`
own their `last_triggered` state. `class_categories` holds `ChannelId`
values (`u64`), modelled as `Nat`. -/
structure Config where
  default_text_detect_cooldown : Int
  starboards : List Starboard
  guild_id : Nat
  help_text : Option String
  bot_react_role_id : Nat
  responses : List RegisteredResponse
  default_hit_rate : ℚ
  skip_hit_rate_text : String
  skip_duration_text : String
  config_path : String
  bot_react_role_members : List ReactRole
  class_categories : List Nat

/-- Embeds `impl Default for Config` of `bot-lib/src/config.rs` (lines 71–88):
empty skip tokens, hit rate 1, the 45-second default cooldown. -/
def Config.default : Config where
  default_text_detect_cooldown := get_default_text_detect_cooldown
  starboards := []
  guild_id := 0
  skip_duration_text := ""
  help_text := Option.none
  bot_react_role_id := 0
  responses := []
  default_hit_rate := 1
  skip_hit_rate_text := ""
  config_path := ""
  bot_react_role_members := []
  class_categories := []

/-- The cooldown gate inside `RegisteredResponse::find_valid_response`
(config.rs lines 200–205): with `cooldown = self.cooldown.unwrap_or(global)`,
`allowed = now - last_triggered > cooldown` and
`blocked = !input.contains(skip_duration_text)`, the gate rejects when
`!allowed && blocked`. -/
def cooldown_gate_blocks (self : RegisteredResponse) (input : String)
    (cfg : Config) (now : Int) : Bool :=
  let cooldown := self.cooldown.getD cfg.default_text_detect_cooldown
  let time_since_last_triggered := now - self.last_triggered
  let allowed := decide (time_since_last_triggered > cooldown)
  let blocked := !(strContains input cfg.skip_duration_text)
  !allowed && blocked

/-- Embeds `RegisteredResponse::find_valid_response` of `bot-lib/src/config.rs`
(lines 183–231). Arguments `now` (the value of `Utc::now()`) and `draw`
(the value of `rand::random::<f64>()`) make the two effects explicit.
Returns the selected content (if any) together with the value left in
`last_triggered` after the call: the source writes `*last_triggered =
Utc::now()` exactly on the path that returns `Some`. -/
def find_valid_response (self : RegisteredResponse) (input : String)
    (cfg : Config) (now : Int) (draw : ℚ) : Option ResponseKind × Int :=
  if !(self.ruleset.«matches» input) then
    (Option.none, self.last_triggered)
  else if cooldown_gate_blocks self input cfg now then
    (Option.none, self.last_triggered)
  else
    let hit_rate := self.hit_rate.getD cfg.default_hit_rate
    let miss := decide (draw > hit_rate)
    let blocked := self.unskippable || !(strContains input cfg.skip_hit_rate_text)
    if miss && blocked then
      (Option.none, self.last_triggered)
    else
      (Option.some self.message_response, now)

/-- Embeds `Config::create_from_file` of `bot-lib/src/config.rs` (lines 92–101).
Reading and TOML-parsing the file are external (`std::fs`, `toml`,
`serde`); their outcome is the `parsed` argument: `none` models an
unreadable or unparsable file, `some config` the deserialized value. On
success the source overrides only `config_path` and performs no further
validation. -/
def create_from_file (parsed : Option Config) (config_path : String) :
    Except String Config :=
  match parsed with
  | Option.none => Except.error "Could not read or parse config file"
  | Option.some config => Except.ok { config with config_path := config_path }

/-- Embeds `Config::reload` of `bot-lib/src/config.rs` (lines 103–108):
`if let Ok(config) = Config::create_from_file(&self.config_path) { *self = config; }`.
On failure the previous configuration is kept unchanged. -/
def Config.reload (self : Config) (parsed : Option Config) : Config :=
  match create_from_file parsed self.config_path with
  | Except.ok config => config
  | Except.error _ => self

/-- The iterator of `AppState::find_response` (`bot-lib/src/data.rs`
lines 79–82): `config.responses.iter().find_map(...)`. The list is walked
left to right; `i` is the position of the head in the original list, used
to look up the head's random draw in the oracle. -/
def find_response_aux (message : String) (cfg : Config) (now : Int)
    (draws : Nat → ℚ) : Nat → List RegisteredResponse → Option ResponseKind
  | _, [] => Option.none
  | i, r :: rest =>
    match (find_valid_response r message cfg now (draws i)).fst with
    | Option.some k => Option.some k
    | Option.none => find_response_aux message cfg now draws (i + 1) rest

/-- Embeds `AppState::find_response` of `bot-lib/src/data.rs` (lines 72–83):
scan the registered responses in declaration order and return the first
valid response's content, or none. -/
def find_response (cfg : Config) (message : String) (now : Int)
    (draws : Nat → ℚ) : Option ResponseKind :=
  find_response_aux message cfg now draws 0 cfg.responses

/-- Embeds `cooldown_checker` of `src/text_detection.rs` (lines 68–81): returns
false and leaves the stored timestamp alone when
`last_message + cooldown > timestamp`; otherwise stores `timestamp` and
returns true. The pair is (returned Bool, timestamp left in the mutex). -/
def cooldown_checker (last_message : Int) (cooldown : Int)
    (timestamp : Int) : Bool × Int :=
  if last_message + cooldown > timestamp then
    (false, last_message)
  else
    (true, timestamp)

/-- The persisted fields of `RegisteredResponse`: every field except
`last_triggered`, which carries `#[serde(skip)]` with serde default
`default_time` in the source. -/
structure SerializedResponse where
  name : String
  hit_rate : Option ℚ
  ruleset : Ruleset
  message_response : ResponseKind
  cooldown : Option Int
  unskippable : Bool

/-- The persisted fields of `Config`: every field except `config_path` and
`bot_react_role_members`, which carry `#[serde(skip)]` in the source. -/
structure SerializedConfig where
  default_text_detect_cooldown : Int
  starboards : List Starboard
  guild_id : Nat
  help_text : Option String
  bot_react_role_id : Nat
  responses : List SerializedResponse
  default_hit_rate : ℚ
  skip_hit_rate_text : String
  skip_duration_text : String
  class_categories : List Nat

/-- serde serialization of one response: project out the persisted fields
(`#[serde(skip)]` drops `last_triggered`). The TOML encoding of this record
is external and assumed faithful. -/
def serializeResponse (r : RegisteredResponse) : SerializedResponse where
  name := r.name
  hit_rate := r.hit_rate
  ruleset := r.ruleset
  message_response := r.message_response
  cooldown := r.cooldown
  unskippable := r.unskippable

/-- serde deserialization of one response: the persisted fields are read
back and the skipped `last_triggered` takes its serde default
`default_time` (= `DateTime::<Utc>::MIN_UTC`). -/
def deserializeResponse (s : SerializedResponse) : RegisteredResponse where
  name := s.name
  hit_rate := s.hit_rate
  ruleset := s.ruleset
  message_response := s.message_response
  last_triggered := default_time
  cooldown := s.cooldown
  unskippable := s.unskippable

/-- serde serialization of a `Config` (the body of `Config::save`,
config.rs lines 110–114, up to the external TOML encoding): the
`#[serde(skip)]` fields `config_path` and `bot_react_role_members` are not
written. -/
def serializeConfig (c : Config) : SerializedConfig where
  default_text_detect_cooldown := c.default_text_detect_cooldown
  starboards := c.starboards
  guild_id := c.guild_id
  help_text := c.help_text
  bot_react_role_id := c.bot_react_role_id
  responses := c.responses.map serializeResponse
  default_hit_rate := c.default_hit_rate
  skip_hit_rate_text := c.skip_hit_rate_text
  skip_duration_text := c.skip_duration_text
  class_categories := c.class_categories

/-- serde deserialization of a `Config` (the `toml::from_str` step of
`Config::create_from_file`): skipped fields take their serde defaults —
empty `config_path` (later overridden by `create_from_file`), empty member
cache, and `default_time` for each response's `last_triggered`. -/
def deserializeConfig (s : SerializedConfig) : Config where
  default_text_detect_cooldown := s.default_text_detect_cooldown
  starboards := s.starboards
  guild_id := s.guild_id
  help_text := s.help_text
  bot_react_role_id := s.bot_react_role_id
  responses := s.responses.map deserializeResponse
  default_hit_rate := s.default_hit_rate
  skip_hit_rate_text := s.skip_hit_rate_text
  skip_duration_text := s.skip_duration_text
  config_path := ""
  bot_react_role_members := []
  class_categories := s.class_categories

/-- Composes `Config::save` with `Config::create_from_file` on the same
path: the file written by `save` holds exactly the serialized form of `c`
(TOML encode/decode, external to this repository, is assumed to be a
faithful inverse pair), so the load parses back
`deserializeConfig (serializeConfig c)`. -/
def save_then_load (c : Config) : Except String Config :=
  create_from_file (Option.some (deserializeConfig (serializeConfig c))) c.config_path

/-! ## Helper lemmas -/

/-- The timestamp left behind by one evaluation: `now` exactly on the
selecting path, the old value on every rejecting path. -/
lemma find_valid_response_snd (self : RegisteredResponse) (input : String)
    (cfg : Config) (now : Int) (draw : ℚ) :
    (find_valid_response self input cfg now draw).snd =
      if (find_valid_response self input cfg now draw).fst.isSome then now
      else self.last_triggered := by
  unfold find_valid_response
  by_cases h1 : (!self.ruleset.«matches» input) = true
  · simp [h1]
  · by_cases h2 : cooldown_gate_blocks self input cfg now = true
    · simp [h1, h2]
    · by_cases h3 : (decide (draw > self.hit_rate.getD cfg.default_hit_rate) &&
          (self.unskippable || !strContains input cfg.skip_hit_rate_text)) = true
      · simp only [h1, h2, h3, if_false, if_true, Bool.not_eq_true] at *
        simp [h3]
      · simp only [Bool.not_eq_true] at h1 h2
        simp [h1, h2, h3]

/-- A response whose cooldown gate rejects is never selected. -/
lemma find_valid_response_none_of_gate (self : RegisteredResponse)
    (input : String) (cfg : Config) (now : Int) (draw : ℚ)
    (h : cooldown_gate_blocks self input cfg now = true) :
    (find_valid_response self input cfg now draw).fst = Option.none := by
  unfold find_valid_response
  split
  · rfl
  · simp [h]

/-- With no skip-cooldown token in the message, the cooldown gate rejects
exactly when the elapsed time is at most the effective cooldown. -/
lemma cooldown_gate_blocks_iff (self : RegisteredResponse) (input : String)
    (cfg : Config) (now : Int)
    (h : strContains input cfg.skip_duration_text = false) :
    cooldown_gate_blocks self input cfg now = true ↔
      now - self.last_triggered ≤ self.cooldown.getD cfg.default_text_detect_cooldown := by
  unfold cooldown_gate_blocks
  simp [h, not_lt]

/-! ## Claims -/

/-- C7: `find_valid_response` leaves `last_triggered` unchanged on every
path that returns no content (rule-set mismatch, cooldown block without
skip token, hit-rate miss without override), and writes it to the current
time exactly on the path that selects the response and returns its
content. -/
theorem claim_C7_last_triggered_frame (self : RegisteredResponse)
    (input : String) (cfg : Config) (now : Int) (draw : ℚ) :
    (find_valid_response self input cfg now draw).snd =
      if (find_valid_response self input cfg now draw).fst.isSome then now
      else self.last_triggered :=
  find_valid_response_snd self input cfg now draw

/-- C4: a failed reload (unreadable or unparsable file, modelled by a
`none` parse outcome) leaves the in-memory configuration exactly as it
was; the configuration is replaced only when the load succeeds, and then
by the loaded value with the stored path. -/
theorem claim_C4_reload_failure_isolation (self parsed : Config) :
    Config.reload self Option.none = self ∧
    Config.reload self (Option.some parsed) =
      { parsed with config_path := self.config_path } :=
  ⟨rfl, rfl⟩

/-- A hit rate of 2 is outside `[0, 1]`; `create_from_file` accepts it. -/
def config_C6 : Config := { Config.default with default_hit_rate := 2 }

/-- C6 counterexample: loading a file whose parsed form carries
`default_hit_rate = 2.0` does NOT fail — `create_from_file` returns the
configuration with the out-of-range value stored verbatim, refuting the
claim that such input is rejected with an error. -/
theorem claim_C6_counterexample :
    create_from_file (Option.some config_C6) "kingfisher.toml" =
      Except.ok { config_C6 with config_path := "kingfisher.toml" } ∧
    ¬ config_C6.default_hit_rate ≤ 1 :=
  ⟨rfl, by norm_num [config_C6]⟩

/-- C6 (amended): `Config::create_from_file` performs no range validation
at all: every successfully parsed configuration is returned as-is (only
`config_path` is overridden), including hit rates outside `[0, 1]`.
Only an unreadable or unparsable file produces an error. -/
theorem claim_C6_amended_no_validation (parsed : Config) (path : String) :
    create_from_file (Option.some parsed) path =
      Except.ok { parsed with config_path := path } :=
  rfl

/-- A response with a 45-tick cooldown, last triggered at time 0, whose
rule set matches every message. -/
def response_C1 : RegisteredResponse where
  name := "resp"
  hit_rate := Option.some 1
  ruleset := ⟨fun _ => true⟩
  message_response := ResponseKind.text "hi"
  last_triggered := 0
  cooldown := Option.some 45
  unskippable := false

/-- C1 counterexample: under the default configuration the skip-cooldown
token is the empty string, and `str::contains` finds the empty string in
every message; so a response evaluated 1 tick after its last trigger —
well inside its 45-tick cooldown — is NOT skipped: the empty token
bypasses the duration check and the content is returned. -/
theorem claim_C1_counterexample :
    Config.default.skip_duration_text = "" ∧
    (1 : Int) - response_C1.last_triggered ≤ 45 ∧
    (find_valid_response response_C1 "hello" Config.default 1 0).fst =
      Option.some (ResponseKind.text "hi") :=
  ⟨rfl, by decide, by decide⟩

/-- C1 (amended): when `skip_duration_text` is the empty string — its
default — the cooldown gate never blocks: the empty token is a substring
of every message, so the duration check is always bypassed, for every
response, message and evaluation time. -/
theorem claim_C1_empty_token_always_bypasses (self : RegisteredResponse)
    (input : String) (cfg : Config) (now : Int)
    (h : cfg.skip_duration_text = "") :
    cooldown_gate_blocks self input cfg now = false := by
  unfold cooldown_gate_blocks strContains
  rw [h]
  simp

/-- C1 witness: the amended theorem applied to the concrete response and
the default configuration. -/
theorem claim_C1_witness :
    Config.default.skip_duration_text = "" ∧
    cooldown_gate_blocks response_C1 "hello" Config.default 1 = false :=
  ⟨rfl, claim_C1_empty_token_always_bypasses response_C1 "hello" Config.default 1 rfl⟩

/-- C2: for a message with no skip-cooldown token, the cooldown gate
rejects exactly when `now - last_triggered ≤ cooldown` (equality blocks);
consequently, after an evaluation at `now` selects the response (writing
`last_triggered := now`), a re-evaluation at `now + Δ` with `Δ <
cooldown` on a message again carrying no skip token returns none. -/
theorem claim_C2_cooldown_blocking (self : RegisteredResponse)
    (input input2 : String) (cfg : Config) (now Δ : Int) (draw draw2 : ℚ)
    (h : strContains input cfg.skip_duration_text = false)
    (h2 : strContains input2 cfg.skip_duration_text = false)
    (hΔ : Δ < self.cooldown.getD cfg.default_text_detect_cooldown)
    (hfirst : (find_valid_response self input cfg now draw).fst.isSome) :
    (cooldown_gate_blocks self input cfg now = true ↔
      now - self.last_triggered ≤
        self.cooldown.getD cfg.default_text_detect_cooldown) ∧
    (find_valid_response
        { self with last_triggered := (find_valid_response self input cfg now draw).snd }
        input2 cfg (now + Δ) draw2).fst = Option.none := by
  refine ⟨cooldown_gate_blocks_iff self input cfg now h, ?_⟩
  have hsnd := find_valid_response_snd self input cfg now draw
  rw [if_pos hfirst] at hsnd
  rw [hsnd]
  apply find_valid_response_none_of_gate
  rw [cooldown_gate_blocks_iff _ input2 cfg (now + Δ) h2]
  show now + Δ - now ≤ ({ self with last_triggered := now } : RegisteredResponse).cooldown.getD _
  have : now + Δ - now = Δ := by ring
  rw [this]
  exact le_of_lt hΔ

/-- A configuration whose skip tokens are non-empty, so that messages not
containing them exist. -/
def config_noskip : Config :=
  { Config.default with skip_duration_text := "zz", skip_hit_rate_text := "zz" }

/-- C2 witness: the theorem applied to `response_C1` at time 100 (elapsed
100 > 45, draw 0 ≤ hit rate 1, so the first evaluation selects) and a
re-evaluation 10 ticks later. -/
theorem claim_C2_witness :
    strContains "hello" config_noskip.skip_duration_text = false ∧
    (10 : Int) < response_C1.cooldown.getD config_noskip.default_text_detect_cooldown ∧
    (find_valid_response response_C1 "hello" config_noskip 100 0).fst.isSome ∧
    ((cooldown_gate_blocks response_C1 "hello" config_noskip 100 = true ↔
        (100 : Int) - response_C1.last_triggered ≤
          response_C1.cooldown.getD config_noskip.default_text_detect_cooldown) ∧
      (find_valid_response
          { response_C1 with
              last_triggered := (find_valid_response response_C1 "hello" config_noskip 100 0).snd }
          "hello" config_noskip (100 + 10) 0).fst = Option.none) :=
  ⟨by decide, by decide, by decide,
    claim_C2_cooldown_blocking response_C1 "hello" "hello" config_noskip 100 10 0 0
      (by decide) (by decide) (by decide) (by decide)⟩

/-- C3 (amended): a matching, non-cooldown-blocked message with effective
hit rate 1 is always selected (the draw lies in `[0,1)`, so it can never
exceed 1). With effective hit rate 0, no skip-hit-rate token and
`unskippable = false`, the response is rejected for every draw strictly
greater than 0 — but a draw of exactly 0 is possible for
`rand::random::<f64>()` and then `miss = (0 > 0)` is false, so the
response IS selected; "never selected" holds only for positive draws. -/
theorem claim_C3_hit_rate_boundary (self : RegisteredResponse)
    (input : String) (cfg : Config) (now : Int) (draw : ℚ)
    (_h0 : 0 ≤ draw) (h1 : draw < 1) :
    (self.ruleset.«matches» input = true →
      cooldown_gate_blocks self input cfg now = false →
      self.hit_rate.getD cfg.default_hit_rate = 1 →
      (find_valid_response self input cfg now draw).fst =
        Option.some self.message_response) ∧
    (self.hit_rate.getD cfg.default_hit_rate = 0 →
      strContains input cfg.skip_hit_rate_text = false →
      self.unskippable = false →
      0 < draw →
      (find_valid_response self input cfg now draw).fst = Option.none) := by
  constructor
  · intro hm hg hr
    unfold find_valid_response
    rw [hm]
    simp only [Bool.not_true, if_false, hg, Bool.false_eq_true, if_false, hr]
    have : ¬ draw > 1 := not_lt.mpr (le_of_lt h1)
    simp [this]
  · intro hr htok hun hpos
    unfold find_valid_response
    by_cases hm : (!self.ruleset.«matches» input) = true
    · simp [hm]
    · simp only [hm, if_false, Bool.false_eq_true]
      by_cases hg : cooldown_gate_blocks self input cfg now = true
      · simp [hg]
      · simp [hg, hr, htok, hun, hpos]

/-- A response with effective hit rate 0, not unskippable, far past its
cooldown. -/
def response_C3 : RegisteredResponse :=
  { response_C1 with hit_rate := Option.some 0 }

/-- C3 counterexample: the original claim says that with hit rate 0, no
skip token and `unskippable = false`, the response is never selected for
every possible draw; but a draw of exactly 0 selects it — the miss test is
the strict comparison `draw > hit_rate`, false at `0 > 0`. -/
theorem claim_C3_counterexample :
    response_C3.hit_rate = Option.some 0 ∧
    response_C3.unskippable = false ∧
    strContains "hello" config_noskip.skip_hit_rate_text = false ∧
    (find_valid_response response_C3 "hello" config_noskip 100 0).fst =
      Option.some (ResponseKind.text "hi") :=
  ⟨rfl, rfl, by decide, by decide⟩

/-- C3 witness: the amended theorem applied at draw 1/2: `response_C1`
(hit rate 1) is selected, `response_C3` (hit rate 0) is rejected. -/
theorem claim_C3_witness :
    (0 : ℚ) ≤ 1 / 2 ∧ (1 : ℚ) / 2 < 1 ∧
    (find_valid_response response_C1 "hello" config_noskip 100 (1 / 2)).fst =
      Option.some (ResponseKind.text "hi") ∧
    (find_valid_response response_C3 "hello" config_noskip 100 (1 / 2)).fst =
      Option.none :=
  ⟨by norm_num, by norm_num,
    (claim_C3_hit_rate_boundary response_C1 "hello" config_noskip 100 (1 / 2)
        (by norm_num) (by norm_num)).1 rfl (by decide) rfl,
    (claim_C3_hit_rate_boundary response_C3 "hello" config_noskip 100 (1 / 2)
        (by norm_num) (by norm_num)).2 rfl (by decide) rfl (by norm_num)⟩

/-- C8: on a hit-rate miss (`draw > hit_rate`) of a matching,
non-cooldown-blocked response, the response is still selected if and only
if it is not unskippable AND the message contains the skip-hit-rate
token; in particular a miss on an unskippable response is never bypassed,
whatever the message text. -/
theorem claim_C8_unskippable_override (self : RegisteredResponse)
    (input : String) (cfg : Config) (now : Int) (draw : ℚ)
    (hm : self.ruleset.«matches» input = true)
    (hg : cooldown_gate_blocks self input cfg now = false)
    (hmiss : draw > self.hit_rate.getD cfg.default_hit_rate) :
    ((find_valid_response self input cfg now draw).fst.isSome ↔
      (self.unskippable = false ∧
        strContains input cfg.skip_hit_rate_text = true)) := by
  unfold find_valid_response
  rw [hm]
  simp only [Bool.not_true, Bool.false_eq_true, if_false, hg]
  by_cases hu : self.unskippable = true
  · simp [hu, hmiss]
  · simp only [Bool.not_eq_true] at hu
    by_cases ht : strContains input cfg.skip_hit_rate_text = true
    · simp [hu, ht, hmiss]
    · simp only [Bool.not_eq_true] at ht
      simp [hu, ht, hmiss]

/-- A response that misses at hit rate 0 but carries the skip-hit-rate
token override; its unskippable twin. -/
def response_C8 : RegisteredResponse :=
  { response_C3 with unskippable := true }

/-- C8 witness: the theorem applied to a missing draw (1/2 > 0) and a
message containing the skip token "zz": the skippable response is
selected, and flipping `unskippable` on makes the same iff rule it out. -/
theorem claim_C8_witness :
    response_C3.ruleset.«matches» "say zz" = true ∧
    cooldown_gate_blocks response_C3 "say zz" config_noskip 100 = false ∧
    (1 : ℚ) / 2 > response_C3.hit_rate.getD config_noskip.default_hit_rate ∧
    ((find_valid_response response_C3 "say zz" config_noskip 100 (1 / 2)).fst.isSome ↔
      (response_C3.unskippable = false ∧
        strContains "say zz" config_noskip.skip_hit_rate_text = true)) ∧
    ((find_valid_response response_C8 "say zz" config_noskip 100 (1 / 2)).fst.isSome ↔
      (response_C8.unskippable = false ∧
        strContains "say zz" config_noskip.skip_hit_rate_text = true)) :=
  ⟨rfl, by decide, by norm_num [response_C3, response_C1],
    claim_C8_unskippable_override response_C3 "say zz" config_noskip 100 (1 / 2)
      rfl (by decide) (by norm_num [response_C3, response_C1]),
    claim_C8_unskippable_override response_C8 "say zz" config_noskip 100 (1 / 2)
      rfl (by decide) (by norm_num [response_C8, response_C3, response_C1])⟩

/-- A response with a 5-tick cooldown, last triggered at time 0, for
comparing the two cooldown gates. -/
def response_C10 : RegisteredResponse :=
  { response_C1 with cooldown := Option.some 5 }

/-- C10 counterexample: at `last = 0`, `cooldown = 5`, `timestamp = 5`
(elapsed exactly equal to the cooldown) the two gates disagree:
`cooldown_checker` permits (`0 + 5 > 5` is false) while
`find_valid_response` — rule set matching, no skip token in the message,
hit rate 1, draw 0 — returns none (`5 - 0 > 5` is false). -/
theorem claim_C10_counterexample :
    (cooldown_checker 0 5 5).fst = true ∧
    response_C10.last_triggered = 0 ∧
    response_C10.cooldown = Option.some 5 ∧
    response_C10.ruleset.«matches» "hello" = true ∧
    strContains "hello" config_noskip.skip_duration_text = false ∧
    (find_valid_response response_C10 "hello" config_noskip 5 0).fst =
      Option.none :=
  ⟨rfl, rfl, rfl, rfl, by decide, by decide⟩

/-- C10 (amended): the two cooldown gates agree everywhere except when
the elapsed time equals the cooldown exactly: `cooldown_checker` permits
a trigger iff `cooldown ≤ timestamp - last` (it blocks iff
`last + cooldown > timestamp`), while the no-skip-token cooldown gate of
`find_valid_response` permits iff `cooldown < timestamp - last`; at
equality the former permits and the latter blocks. -/
theorem claim_C10_gates_agree_except_boundary (last cooldown timestamp : Int)
    (self : RegisteredResponse) (input : String) (cfg : Config)
    (h1 : self.last_triggered = last)
    (h2 : self.cooldown = Option.some cooldown)
    (h3 : strContains input cfg.skip_duration_text = false) :
    ((cooldown_checker last cooldown timestamp).fst = true ↔
      cooldown ≤ timestamp - last) ∧
    (cooldown_gate_blocks self input cfg timestamp = false ↔
      cooldown < timestamp - last) := by
  constructor
  · unfold cooldown_checker
    constructor
    · intro hp
      by_contra hc
      rw [if_pos (by omega)] at hp
      exact Bool.false_ne_true hp
    · intro hc
      rw [if_neg (by omega)]
  · rw [← Bool.not_eq_true, cooldown_gate_blocks_iff self input cfg timestamp h3,
      h1, h2]
    show ¬ timestamp - last ≤ (Option.some cooldown).getD _ ↔ _
    rw [Option.getD_some]
    omega

/-- C10 witness: the amended theorem applied at `last = 0`,
`cooldown = 5`, `timestamp = 6`, where both gates permit. -/
theorem claim_C10_witness :
    response_C10.last_triggered = 0 ∧
    response_C10.cooldown = Option.some 5 ∧
    strContains "hello" config_noskip.skip_duration_text = false ∧
    (((cooldown_checker 0 5 6).fst = true ↔ (5 : Int) ≤ 6 - 0) ∧
      (cooldown_gate_blocks response_C10 "hello" config_noskip 6 = false ↔
        (5 : Int) < 6 - 0)) :=
  ⟨rfl, rfl, by decide,
    claim_C10_gates_agree_except_boundary 0 5 6 response_C10 "hello" config_noskip
      rfl rfl (by decide)⟩

/-- If every response of the scanned suffix is invalid for the message,
the scan returns none (`i0` is the position of the suffix's head). -/
lemma find_response_aux_eq_none (message : String) (cfg : Config)
    (now : Int) (draws : Nat → ℚ) :
    ∀ (l : List RegisteredResponse) (i0 : Nat),
      (∀ j (hj : j < l.length),
        (find_valid_response (l.get ⟨j, hj⟩) message cfg now
          (draws (i0 + j))).fst = Option.none) →
      find_response_aux message cfg now draws i0 l = Option.none := by
  intro l
  induction l with
  | nil => intro i0 _; rfl
  | cons r rest ih =>
    intro i0 h
    have h0 := h 0 (Nat.succ_pos _)
    simp only [List.get, Nat.add_zero] at h0
    unfold find_response_aux
    rw [h0]
    apply ih (i0 + 1)
    intro j hj
    have hs := h (j + 1) (Nat.succ_lt_succ hj)
    simp only [List.get] at hs
    have harith : i0 + (j + 1) = i0 + 1 + j := by omega
    rw [harith] at hs
    exact hs

/-- If position `j` of the scanned suffix is valid and every earlier
position is invalid, the scan returns position `j`'s content. -/
lemma find_response_aux_eq_some (message : String) (cfg : Config)
    (now : Int) (draws : Nat → ℚ) :
    ∀ (l : List RegisteredResponse) (i0 j : Nat) (hj : j < l.length)
      (k : ResponseKind),
      (find_valid_response (l.get ⟨j, hj⟩) message cfg now
        (draws (i0 + j))).fst = Option.some k →
      (∀ i (hi : i < j),
        (find_valid_response (l.get ⟨i, Nat.lt_trans hi hj⟩) message cfg now
          (draws (i0 + i))).fst = Option.none) →
      find_response_aux message cfg now draws i0 l = Option.some k := by
  intro l
  induction l with
  | nil => intro i0 j hj; exact absurd hj (Nat.not_lt_zero j)
  | cons r rest ih =>
    intro i0 j hj k hsome hnone
    cases j with
    | zero =>
      simp only [List.get, Nat.add_zero] at hsome
      unfold find_response_aux
      rw [hsome]
    | succ j' =>
      have hr := hnone 0 (Nat.succ_pos _)
      simp only [List.get, Nat.add_zero] at hr
      unfold find_response_aux
      rw [hr]
      have hj' : j' < rest.length := Nat.lt_of_succ_lt_succ hj
      apply ih (i0 + 1) j' hj' k
      · simp only [List.get] at hsome
        have harith : i0 + (j' + 1) = i0 + 1 + j' := by omega
        rw [harith] at hsome
        exact hsome
      · intro i hi
        have hs := hnone (i + 1) (Nat.succ_lt_succ hi)
        simp only [List.get] at hs
        have harith : i0 + (i + 1) = i0 + 1 + i := by omega
        rw [harith] at hs
        exact hs

/-- C5: the registry scan of `AppState::find_response` tries the
registered responses in declaration order: if no response is valid for
the message it returns none, and if position `j` is the first valid one
(every earlier position invalid) it returns position `j`'s content. -/
theorem claim_C5_first_eligible_match (cfg : Config) (message : String)
    (now : Int) (draws draws2 : Nat → ℚ) (j : Nat)
    (hj : j < cfg.responses.length) (k : ResponseKind)
    (hsome : (find_valid_response (cfg.responses.get ⟨j, hj⟩) message cfg now
      (draws j)).fst = Option.some k)
    (hbefore : ∀ i (hi : i < j),
      (find_valid_response (cfg.responses.get ⟨i, Nat.lt_trans hi hj⟩)
        message cfg now (draws i)).fst = Option.none)
    (hnone2 : ∀ i (hi : i < cfg.responses.length),
      (find_valid_response (cfg.responses.get ⟨i, hi⟩) message cfg now
        (draws2 i)).fst = Option.none) :
    find_response cfg message now draws = Option.some k ∧
    find_response cfg message now draws2 = Option.none := by
  constructor
  · unfold find_response
    apply find_response_aux_eq_some message cfg now draws cfg.responses 0 j hj k
    · simpa using hsome
    · intro i hi
      simpa using hbefore i hi
  · unfold find_response
    apply find_response_aux_eq_none
    intro i hi
    simpa using hnone2 i hi

/-- A response whose rule set matches no message. -/
def response_nomatch : RegisteredResponse :=
  { response_C1 with name := "nm", ruleset := ⟨fun _ => false⟩ }

/-- A registry with a non-matching response declared before a matching
one. -/
def config_C5 : Config :=
  { config_noskip with responses := [response_nomatch, response_C1] }

/-- C5 witness: on the concrete registry, with draws that hit, the scan
skips the non-matching first response and returns the second's content;
with draws that miss everywhere it returns none. -/
theorem claim_C5_witness :
    (find_valid_response response_C1 "hello" config_C5 100 0).fst =
      Option.some (ResponseKind.text "hi") ∧
    (find_response config_C5 "hello" 100 (fun _ => 0) =
        Option.some (ResponseKind.text "hi") ∧
      find_response config_C5 "hello" 100 (fun _ => 2) = Option.none) := by
  refine ⟨by decide, ?_⟩
  exact claim_C5_first_eligible_match config_C5 "hello" 100 (fun _ => 0)
    (fun _ => 2) 1 (by decide) (ResponseKind.text "hi") (by decide)
    (by
      intro i hi
      have h0 : i = 0 := by omega
      subst h0
      exact (by decide :
        (find_valid_response response_nomatch "hello" config_C5 100
          (0 : ℚ)).fst = Option.none))
    (by
      intro i hi
      have hl : config_C5.responses.length = 2 := rfl
      rw [hl] at hi
      interval_cases i
      · exact (by decide :
          (find_valid_response response_nomatch "hello" config_C5 100
            (2 : ℚ)).fst = Option.none)
      · exact (by decide :
          (find_valid_response response_C1 "hello" config_C5 100
            (2 : ℚ)).fst = Option.none))

/-- Serializing then deserializing a response list keeps every persisted
field and resets each `last_triggered` to its serde default. -/
lemma roundtrip_responses (rs : List RegisteredResponse) :
    (rs.map serializeResponse).map deserializeResponse =
      rs.map (fun r => { r with last_triggered := default_time }) := by
  rw [List.map_map]
  rfl

/-- C9 (amended): saving a configuration and loading it back from the
same path reproduces every field except the two unserialized transient
ones: each response's `last_triggered` resets to the minimum ("never")
value, and the `bot_react_role_members` cache resets to empty
(`config_path` itself is restored by the loader from the path argument). -/
theorem claim_C9_round_trip (c : Config) :
    save_then_load c = Except.ok
      { c with
          responses :=
            c.responses.map (fun r => { r with last_triggered := default_time }),
          bot_react_role_members := [] } := by
  unfold save_then_load create_from_file deserializeConfig serializeConfig
  rw [← roundtrip_responses]

/-- A configuration with a non-empty react-role member cache. -/
def config_C9 : Config :=
  { Config.default with bot_react_role_members := [⟨true, 7⟩] }

/-- C9 counterexample: the round trip is NOT lossless for every field
other than `last_triggered`: the `bot_react_role_members` cache (also
`#[serde(skip)]`) comes back empty, differing from the saved
configuration's non-empty cache. -/
theorem claim_C9_counterexample :
    save_then_load config_C9 =
      Except.ok { config_C9 with bot_react_role_members := [] } ∧
    ({ config_C9 with
        bot_react_role_members := ([] : List ReactRole) }).bot_react_role_members ≠
      config_C9.bot_react_role_members :=
  ⟨rfl, by decide⟩
